import Mathlib

/-!
Verification of the Passenger/Flight CRUD API (`main.py`, `models/flight.py`,
`models/passenger.py`) against its specification.

The source is a FastAPI application with two process-local dictionaries,
`flights : Dict[UUID, FlightRead]` and `passengers : Dict[UUID, PassengerRead]`,
and five handlers per resource (create, list, get, patch, delete).

Embedding choices:
* A Python `dict` is modelled as an insertion-ordered association list
  (`Store`).  `dict.__setitem__` replaces the value in place when the key is
  present and appends otherwise; `del` removes the entry; `values()` is the
  ordered list of values.
* `uuid4()` and `datetime.utcnow()` are nondeterministic; each call site is
  modelled as an explicit parameter of the handler (`gen`, `tc`, `tu`).
* Pydantic models become structures.  A pydantic field annotated `str` with
  default `None` (as `FlightBase.arrivalTime` and
  `FlightBase.departureAirport` are) is `Option String` on the payload type,
  because pydantic does not validate defaults: omitting the field leaves the
  runtime value `None`.  Validation of explicitly supplied values is modelled
  where the handlers construct `FlightRead` / `PassengerRead` from a dict:
  an explicit `None` for a non-`Optional` field raises `ValidationError`.
* A partial-update field is `Option (Option α)`: the outer layer records
  whether the field was set (pydantic `model_dump(exclude_unset=True)` keeps
  exactly the set fields), the inner layer is the JSON value, which may be
  `null` because the update models annotate fields `Optional[...]`.
* An uncaught Python exception inside a handler (`AttributeError`,
  `ValidationError`) is surfaced by FastAPI as HTTP 500; `HTTPException`
  carries its status code.  Handler results are `Except Err`; mutating
  handlers also return the (possibly unchanged) store.
-/

/-- UUIDs are opaque tokens compared only for equality; modelled as `Nat`. -/
abbrev UUID := Nat

/-- `datetime` values are opaque timestamps compared only for equality. -/
abbrev Timestamp := Nat

/-- Python `datetime.date`: a calendar date. -/
structure Date where
  year : Nat
  month : Nat
  day : Nat
deriving DecidableEq

/-- Left-pad the decimal representation of `n` with zeros to width `w`. -/
def padNum (w n : Nat) : String :=
  let s := toString n
  String.mk (List.replicate (w - s.length) '0') ++ s

/-- Python `str(date)`: ISO `YYYY-MM-DD` with zero padding. -/
def Date.isoString (d : Date) : String :=
  padNum 4 d.year ++ "-" ++ padNum 2 d.month ++ "-" ++ padNum 2 d.day

/-- A Python `dict` keyed by UUID: an insertion-ordered association list. -/
abbrev Store (α : Type) := List (UUID × α)

/-- `d[k]` / `k in d`: the value stored under `k`, if any. -/
def Store.find? {α : Type} : Store α → UUID → Option α
  | [], _ => none
  | (k', v) :: t, k => if k' = k then some v else Store.find? t k

/-- `d[k] = v`: replace in place when present, append otherwise. -/
def Store.insert {α : Type} : Store α → UUID → α → Store α
  | [], k, v => [(k, v)]
  | (k', v') :: t, k, v =>
      if k' = k then (k, v) :: t else (k', v') :: Store.insert t k v

/-- `del d[k]`: drop the entry stored under `k`. -/
def Store.erase {α : Type} (s : Store α) (k : UUID) : Store α :=
  s.filter (fun e => e.1 ≠ k)

/-- `list(d.values())` in insertion order. -/
def Store.values {α : Type} (s : Store α) : List α :=
  s.map (fun e => e.2)

/-- Failure modes a handler can surface. -/
inductive Err where
  /-- `HTTPException(status_code=404, ...)`. -/
  | notFound
  /-- `HTTPException(status_code=400, ...)` on a flight id collision. -/
  | conflict
  /-- Uncaught `AttributeError` (missing model attribute). -/
  | attributeError
  /-- Uncaught pydantic `ValidationError` while building a Read model. -/
  | validationError
deriving DecidableEq

/-- HTTP status each failure is surfaced as (uncaught exceptions are 500). -/
def statusOf : Err → Nat
  | .notFound => 404
  | .conflict => 400
  | .attributeError => 500
  | .validationError => 500

/-! ## Flight models (`models/flight.py`) -/

/-- `FlightCreate` (inheriting `FlightBase`): the POST /flights payload.
`arrivalTime` and `departureAirport` are declared `str` but with default
`None`, which pydantic does not validate, so their runtime value is optional;
the other four fields are required strings.  The model declares no `id`,
`created_at` or `updated_at` field. -/
structure FlightCreate where
  flightNumber : String
  boardingTime : String
  departureTime : String
  arrivalTime : Option String
  departureAirport : Option String
  arrivalAirport : String
deriving DecidableEq

/-- `FlightRead`: the stored/returned representation.  Every instance the
handlers build passes all six base fields explicitly, so they are validated
non-`None` strings. -/
structure FlightRead where
  flightNumber : String
  boardingTime : String
  departureTime : String
  arrivalTime : String
  departureAirport : String
  arrivalAirport : String
  id : UUID
  created_at : Timestamp
  updated_at : Timestamp
deriving DecidableEq

/-- `FlightUpdate`: partial PATCH payload.  Outer `Option`: was the field set
(present in `model_dump(exclude_unset=True)`)?  Inner `Option`: the JSON
value, possibly `null` since every field is `Optional[str]`. -/
structure FlightUpdate where
  flightNumber : Option (Option String)
  boardingTime : Option (Option String)
  departureTime : Option (Option String)
  arrivalTime : Option (Option String)
  departureAirport : Option (Option String)
  arrivalAirport : Option (Option String)
deriving DecidableEq

/-- The optional query parameters of GET /flights. -/
structure FlightQuery where
  flightNumber : Option String
  boardingTime : Option String
  departureTime : Option String
  arrivalTime : Option String
  departureAirport : Option String
  arrivalAirport : Option String
deriving DecidableEq

abbrev FStore := Store FlightRead

/-- Python attribute lookup `flight.id` on a `FlightCreate`: neither
`FlightCreate` nor `FlightBase` declares an `id` field (only `FlightRead`
does), and extra payload keys are ignored by pydantic, so the lookup finds
nothing and raises `AttributeError`. -/
def FlightCreate.getattrId (_flight : FlightCreate) : Option UUID := none

/-- `create_flight` (main.py lines 35-40).  Evaluating `flight.id` in the
collision check raises `AttributeError` before anything else runs.  The
remaining lines are kept for fidelity: were an id `fid` found, a collision
would be a 400, and otherwise `FlightRead(**flight.model_dump())` would be
stored under `fid` (not under the freshly generated `gen`), with
`ValidationError` if a defaulted-`None` base field is passed explicitly. -/
def create_flight (s : FStore) (flight : FlightCreate) (gen : UUID)
    (tc tu : Timestamp) : FStore × Except Err FlightRead :=
  match flight.getattrId with
  | none => (s, .error .attributeError)
  | some fid =>
    if (s.find? fid).isSome then
      (s, .error .conflict)
    else
      match flight.arrivalTime, flight.departureAirport with
      | some a1, some da =>
        let r : FlightRead :=
          ⟨flight.flightNumber, flight.boardingTime, flight.departureTime,
           a1, da, flight.arrivalAirport, gen, tc, tu⟩
        (s.insert fid r, .ok r)
      | _, _ => (s, .error .validationError)

/-- `list_flights` (main.py lines 43-68): start from all values and narrow
by one list comprehension per supplied filter. -/
def list_flights (s : FStore) (q : FlightQuery) : List FlightRead :=
  let results := s.values
  let results := match q.flightNumber with
    | none => results
    | some v => results.filter (fun a => a.flightNumber == v)
  let results := match q.boardingTime with
    | none => results
    | some v => results.filter (fun a => a.boardingTime == v)
  let results := match q.departureTime with
    | none => results
    | some v => results.filter (fun a => a.departureTime == v)
  let results := match q.arrivalTime with
    | none => results
    | some v => results.filter (fun a => a.arrivalTime == v)
  let results := match q.departureAirport with
    | none => results
    | some v => results.filter (fun a => a.departureAirport == v)
  let results := match q.arrivalAirport with
    | none => results
    | some v => results.filter (fun a => a.arrivalAirport == v)
  results

/-- `get_flight` (main.py lines 70-74). -/
def get_flight (s : FStore) (flight_id : UUID) : Except Err FlightRead :=
  match s.find? flight_id with
  | none => .error .notFound
  | some r => .ok r

/-- `update_flight` (main.py lines 76-83): dump the stored record, overlay
the set fields of the payload, revalidate as `FlightRead`.  `id`,
`created_at` and `updated_at` are absent from `FlightUpdate`, hence copied
from the stored dump.  A field set to `null` reaches `FlightRead(**stored)`
as an explicit `None` and raises `ValidationError` (store untouched). -/
def update_flight (s : FStore) (flight_id : UUID) (update : FlightUpdate) :
    FStore × Except Err FlightRead :=
  match s.find? flight_id with
  | none => (s, .error .notFound)
  | some stored =>
    let fn := update.flightNumber.getD (some stored.flightNumber)
    let bt := update.boardingTime.getD (some stored.boardingTime)
    let dt := update.departureTime.getD (some stored.departureTime)
    let a1 := update.arrivalTime.getD (some stored.arrivalTime)
    let da := update.departureAirport.getD (some stored.departureAirport)
    let aa := update.arrivalAirport.getD (some stored.arrivalAirport)
    match fn, bt, dt, a1, da, aa with
    | some fn, some bt, some dt, some a1, some da, some aa =>
      let r : FlightRead :=
        ⟨fn, bt, dt, a1, da, aa, stored.id, stored.created_at, stored.updated_at⟩
      (s.insert flight_id r, .ok r)
    | _, _, _, _, _, _ => (s, .error .validationError)

/-- `delete_flight` (main.py lines 85-90). -/
def delete_flight (s : FStore) (flight_id : UUID) : FStore × Except Err Unit :=
  match s.find? flight_id with
  | none => (s, .error .notFound)
  | some _ => (s.erase flight_id, .ok ())

/-! ## Passenger models (`models/passenger.py`) -/

/-- `PassengerCreate` (inheriting `PassengerBase`): all fields required
except `flights`, whose default factory supplies `[]`; `email` is an
`EmailStr`, i.e. a syntactically validated string.  No `id`/timestamps. -/
structure PassengerCreate where
  firstName : String
  lastName : String
  email : String
  phone : String
  birthDate : Date
  passportNumber : String
  flights : List UUID
deriving DecidableEq

/-- `PassengerRead`: the stored/returned representation. -/
structure PassengerRead where
  firstName : String
  lastName : String
  email : String
  phone : String
  birthDate : Date
  passportNumber : String
  flights : List UUID
  id : UUID
  created_at : Timestamp
  updated_at : Timestamp
deriving DecidableEq

/-- `PassengerUpdate`: partial PATCH payload, same two-layer encoding as
`FlightUpdate`. -/
structure PassengerUpdate where
  firstName : Option (Option String)
  lastName : Option (Option String)
  email : Option (Option String)
  phone : Option (Option String)
  birthDate : Option (Option Date)
  passportNumber : Option (Option String)
  flights : Option (Option (List UUID))
deriving DecidableEq

/-- The optional query parameters of GET /passengers. -/
structure PassengerQuery where
  firstName : Option String
  lastName : Option String
  email : Option String
  phone : Option String
  birthDate : Option String
deriving DecidableEq

abbrev PStore := Store PassengerRead

/-- `create_passenger` (main.py lines 95-100):
`PassengerRead(**passenger.model_dump())` copies the validated payload
fields and generates `id` (`uuid4`) and both timestamps (`utcnow`); the
record is stored under its own generated id.  No failure path. -/
def create_passenger (s : PStore) (passenger : PassengerCreate) (gen : UUID)
    (tc tu : Timestamp) : PStore × PassengerRead :=
  let passenger_read : PassengerRead :=
    ⟨passenger.firstName, passenger.lastName, passenger.email,
     passenger.phone, passenger.birthDate, passenger.passportNumber,
     passenger.flights, gen, tc, tu⟩
  (s.insert passenger_read.id passenger_read, passenger_read)

/-- `list_passengers` (main.py lines 102-123); the `birthDate` filter
compares `str(p.birthDate)` with the query string. -/
def list_passengers (s : PStore) (q : PassengerQuery) : List PassengerRead :=
  let results := s.values
  let results := match q.firstName with
    | none => results
    | some v => results.filter (fun p => p.firstName == v)
  let results := match q.lastName with
    | none => results
    | some v => results.filter (fun p => p.lastName == v)
  let results := match q.email with
    | none => results
    | some v => results.filter (fun p => p.email == v)
  let results := match q.phone with
    | none => results
    | some v => results.filter (fun p => p.phone == v)
  let results := match q.birthDate with
    | none => results
    | some v => results.filter (fun p => p.birthDate.isoString == v)
  results

/-- `get_passenger` (main.py lines 125-129). -/
def get_passenger (s : PStore) (passenger_id : UUID) :
    Except Err PassengerRead :=
  match s.find? passenger_id with
  | none => .error .notFound
  | some r => .ok r

/-- `update_passenger` (main.py lines 131-138): same merge-and-revalidate
shape as `update_flight`. -/
def update_passenger (s : PStore) (passenger_id : UUID)
    (update : PassengerUpdate) : PStore × Except Err PassengerRead :=
  match s.find? passenger_id with
  | none => (s, .error .notFound)
  | some stored =>
    let fn := update.firstName.getD (some stored.firstName)
    let ln := update.lastName.getD (some stored.lastName)
    let em := update.email.getD (some stored.email)
    let ph := update.phone.getD (some stored.phone)
    let bd := update.birthDate.getD (some stored.birthDate)
    let pp := update.passportNumber.getD (some stored.passportNumber)
    let fl := update.flights.getD (some stored.flights)
    match fn, ln, em, ph, bd, pp, fl with
    | some fn, some ln, some em, some ph, some bd, some pp, some fl =>
      let r : PassengerRead :=
        ⟨fn, ln, em, ph, bd, pp, fl, stored.id, stored.created_at,
         stored.updated_at⟩
      (s.insert passenger_id r, .ok r)
    | _, _, _, _, _, _, _ => (s, .error .validationError)

/-- `delete_passenger` (main.py lines 140-145). -/
def delete_passenger (s : PStore) (passenger_id : UUID) :
    PStore × Except Err Unit :=
  match s.find? passenger_id with
  | none => (s, .error .notFound)
  | some _ => (s.erase passenger_id, .ok ())

/-! ## Store lemmas -/

theorem Store.find?_insert {α : Type} (s : Store α) (k k' : UUID) (v : α) :
    (s.insert k v).find? k' = if k = k' then some v else s.find? k' := by
  induction s with
  | nil => simp [Store.insert, Store.find?]
  | cons e t ih =>
    obtain ⟨ek, ev⟩ := e
    by_cases hek : ek = k
    · subst hek
      simp only [Store.insert, if_pos rfl, Store.find?]
      by_cases h : ek = k'
      · subst h; simp [Store.find?]
      · simp [Store.find?, h]
    · simp only [Store.insert, if_neg hek, Store.find?]
      by_cases h : ek = k'
      · subst h
        have : ¬ (k = ek) := fun hc => hek hc.symm
        simp [this]
      · simp [h, ih]

theorem Store.find?_insert_self {α : Type} (s : Store α) (k : UUID) (v : α) :
    (s.insert k v).find? k = some v := by
  simp [Store.find?_insert]

theorem Store.find?_insert_ne {α : Type} (s : Store α) (k k' : UUID) (v : α)
    (h : k ≠ k') : (s.insert k v).find? k' = s.find? k' := by
  simp [Store.find?_insert, h]

theorem Store.erase_cons {α : Type} (ek : UUID) (ev : α) (t : Store α)
    (k : UUID) :
    Store.erase ((ek, ev) :: t) k =
      if ek = k then Store.erase t k else (ek, ev) :: Store.erase t k := by
  by_cases hek : ek = k <;> simp [Store.erase, List.filter_cons, hek]

theorem Store.find?_erase_self {α : Type} (s : Store α) (k : UUID) :
    (s.erase k).find? k = none := by
  induction s with
  | nil => rfl
  | cons e t ih =>
    obtain ⟨ek, ev⟩ := e
    rw [Store.erase_cons]
    by_cases hek : ek = k
    · rw [if_pos hek]; exact ih
    · rw [if_neg hek]
      show (if ek = k then some ev else Store.find? (Store.erase t k) k) = none
      rw [if_neg hek]; exact ih

theorem Store.find?_erase_ne {α : Type} (s : Store α) (k k' : UUID)
    (h : k' ≠ k) : (s.erase k).find? k' = s.find? k' := by
  induction s with
  | nil => rfl
  | cons e t ih =>
    obtain ⟨ek, ev⟩ := e
    rw [Store.erase_cons]
    by_cases hek : ek = k
    · rw [if_pos hek]
      have hne : ek ≠ k' := fun hc => h (hc ▸ hek)
      show _ = (if ek = k' then some ev else Store.find? t k')
      rw [if_neg hne]; exact ih
    · rw [if_neg hek]
      show (if ek = k' then some ev else Store.find? (Store.erase t k) k') =
        (if ek = k' then some ev else Store.find? t k')
      by_cases hk' : ek = k'
      · rw [if_pos hk', if_pos hk']
      · rw [if_neg hk', if_neg hk']; exact ih

theorem Store.mem_insert {α : Type} (s : Store α) (k : UUID) (v : α)
    (e : UUID × α) (he : e ∈ s.insert k v) : e = (k, v) ∨ e ∈ s := by
  induction s with
  | nil => simp [Store.insert] at he; simp [he]
  | cons e' t ih =>
    obtain ⟨ek, ev⟩ := e'
    by_cases hek : ek = k
    · subst hek
      simp only [Store.insert, if_pos rfl] at he
      rcases List.mem_cons.mp he with h | h
      · exact Or.inl h
      · exact Or.inr (List.mem_cons_of_mem _ h)
    · simp only [Store.insert, if_neg hek] at he
      rcases List.mem_cons.mp he with h | h
      · exact Or.inr (h ▸ List.mem_cons_self _ _)
      · rcases ih h with h' | h'
        · exact Or.inl h'
        · exact Or.inr (List.mem_cons_of_mem _ h')

theorem Store.mem_erase {α : Type} (s : Store α) (k : UUID)
    (e : UUID × α) (he : e ∈ s.erase k) : e ∈ s :=
  List.mem_of_mem_filter he

/-- Merging one partial-update field: when the field is not explicitly set
to `null`, the merged dict value is a proper value, equal to the payload
value when the field was set and to the stored value when it was omitted. -/
theorem mergeField {α : Type} (o : Option (Option α)) (d : α)
    (h : o ≠ some none) :
    ∃ w, o.getD (some d) = some w ∧
      (∀ v, o = some (some v) → w = v) ∧ (o = none → w = d) := by
  cases o with
  | none => exact ⟨d, rfl, by simp, fun _ => rfl⟩
  | some o' =>
    cases o' with
    | none => exact absurd rfl h
    | some v =>
      refine ⟨v, rfl, ?_, by simp⟩
      intro v' hv'
      simpa using hv'

/-! ## Filter predicates and concrete fixtures -/

/-- A flight matches a query when every supplied filter equals the
corresponding field (conjunction of exact matches). -/
def flightMatches (q : FlightQuery) (a : FlightRead) : Bool :=
  (match q.flightNumber with | none => true | some v => a.flightNumber == v) &&
  (match q.boardingTime with | none => true | some v => a.boardingTime == v) &&
  (match q.departureTime with | none => true | some v => a.departureTime == v) &&
  (match q.arrivalTime with | none => true | some v => a.arrivalTime == v) &&
  (match q.departureAirport with
    | none => true | some v => a.departureAirport == v) &&
  (match q.arrivalAirport with
    | none => true | some v => a.arrivalAirport == v)

/-- A passenger matches a query when every supplied filter equals the
corresponding field; `birthDate` is compared via its string form. -/
def passengerMatches (q : PassengerQuery) (p : PassengerRead) : Bool :=
  (match q.firstName with | none => true | some v => p.firstName == v) &&
  (match q.lastName with | none => true | some v => p.lastName == v) &&
  (match q.email with | none => true | some v => p.email == v) &&
  (match q.phone with | none => true | some v => p.phone == v) &&
  (match q.birthDate with
    | none => true | some v => p.birthDate.isoString == v)

/-- Unfolding `create_passenger` into its stored record. -/
theorem create_passenger_eq (s : PStore) (p : PassengerCreate) (g : UUID)
    (tc tu : Timestamp) :
    create_passenger s p g tc tu =
      (Store.insert s g
        ⟨p.firstName, p.lastName, p.email, p.phone, p.birthDate,
         p.passportNumber, p.flights, g, tc, tu⟩,
       ⟨p.firstName, p.lastName, p.email, p.phone, p.birthDate,
        p.passportNumber, p.flights, g, tc, tu⟩) := rfl

/-- The spec's example flight record, stored under id 1. -/
def fr0 : FlightRead :=
  ⟨"UA1250", "7:00AM", "7:32AM", "11:38AM", "JFK", "SFO", 1, 10, 10⟩

def fs0 : FStore := [(1, fr0)]

/-- The spec's example flight creation payload. -/
def f0 : FlightCreate :=
  ⟨"UA1250", "7:00AM", "7:32AM", some "11:38AM", some "JFK", "SFO"⟩

/-- The models' example passenger record, stored under id 1. -/
def pr0 : PassengerRead :=
  ⟨"Ada", "Lovelace", "ada@example.com", "+1-212-555-0199", ⟨1815, 12, 10⟩,
   "A12345678", [], 1, 10, 10⟩

def ps0 : PStore := [(1, pr0)]

/-- The models' example passenger creation payload. -/
def p0 : PassengerCreate :=
  ⟨"Grace", "Hopper", "grace.hopper@navy.mil", "+1-202-555-0101",
   ⟨1906, 12, 9⟩, "B12345678", []⟩

/-! ## Claims -/

/-- Claim C1: the claim says Flight Create succeeds with 201 for every valid
payload and fails with 400 exactly on an id collision.  The code instead
evaluates `flight.id` on a `FlightCreate`, which declares no `id` field, so
every POST /flights raises `AttributeError` (HTTP 500) and leaves the store
unchanged; it never returns 201 and never returns the 400 Conflict. -/
theorem C1_create_flight_always_500 :
    ∀ (s : FStore) (flight : FlightCreate) (gen : UUID) (tc tu : Timestamp),
      create_flight s flight gen tc tu = (s, Except.error Err.attributeError) ∧
      statusOf Err.attributeError = 500 := by
  intro s flight gen tc tu
  exact ⟨rfl, rfl⟩

/-- Claim C4: creating a Passenger and fetching the returned identifier
yields the identical record (in particular identical up to timestamps); for
Flights the claimed round trip is impossible because `create_flight` raises
`AttributeError` (HTTP 500) on every payload and stores nothing. -/
theorem C4_create_then_get :
    (∀ (s : PStore) (p : PassengerCreate) (gen : UUID) (tc tu : Timestamp),
      get_passenger (create_passenger s p gen tc tu).1
          (create_passenger s p gen tc tu).2.id
        = Except.ok (create_passenger s p gen tc tu).2) ∧
    (∀ (s : FStore) (f : FlightCreate) (gen : UUID) (tc tu : Timestamp),
      (create_flight s f gen tc tu).2 = Except.error Err.attributeError) := by
  constructor
  · intro s p gen tc tu
    rw [create_passenger_eq]
    simp [get_passenger, Store.find?_insert_self]
  · intro s f gen tc tu
    rfl

/-- Claim C7: for both stores, Get(id) returns the stored record exactly
when the identifier is present, and otherwise fails with NotFound, which is
surfaced as HTTP 404. -/
theorem C7_get_found_iff :
    ∀ (fs : FStore) (ps : PStore) (i : UUID),
      (∀ r, get_flight fs i = Except.ok r ↔ Store.find? fs i = some r) ∧
      (get_flight fs i = Except.error Err.notFound ↔
        Store.find? fs i = none) ∧
      (∀ r, get_passenger ps i = Except.ok r ↔ Store.find? ps i = some r) ∧
      (get_passenger ps i = Except.error Err.notFound ↔
        Store.find? ps i = none) ∧
      statusOf Err.notFound = 404 := by
  intro fs ps i
  refine ⟨fun r => ?_, ?_, fun r => ?_, ?_, rfl⟩
  · cases h : Store.find? fs i <;> simp [get_flight, h]
  · cases h : Store.find? fs i <;> simp [get_flight, h]
  · cases h : Store.find? ps i <;> simp [get_passenger, h]
  · cases h : Store.find? ps i <;> simp [get_passenger, h]

/-- Claim C3: List returns exactly the stored records on which every
supplied filter matches exactly (logical AND; Passenger `birthDate` matched
against its string representation), listing with no filters returns all
stored records, and List is a total function (it never fails). -/
theorem C3_list_filters :
    ∀ (fs : FStore) (qf : FlightQuery) (ps : PStore) (qp : PassengerQuery),
      list_flights fs qf
        = (Store.values fs).filter (fun a => flightMatches qf a) ∧
      list_flights fs ⟨none, none, none, none, none, none⟩ = Store.values fs ∧
      list_passengers ps qp
        = (Store.values ps).filter (fun p => passengerMatches qp p) ∧
      list_passengers ps ⟨none, none, none, none, none⟩ = Store.values ps := by
  intro fs qf ps qp
  obtain ⟨q1, q2, q3, q4, q5, q6⟩ := qf
  obtain ⟨w1, w2, w3, w4, w5⟩ := qp
  refine ⟨?_, ?_, ?_, ?_⟩
  · cases q1 <;> cases q2 <;> cases q3 <;> cases q4 <;> cases q5 <;> cases q6 <;>
      simp [list_flights, flightMatches, List.filter_filter,
        Bool.and_assoc, Bool.and_comm, Bool.and_left_comm]
  · simp [list_flights]
  · cases w1 <;> cases w2 <;> cases w3 <;> cases w4 <;> cases w5 <;>
      simp [list_passengers, passengerMatches, List.filter_filter,
        Bool.and_assoc, Bool.and_comm, Bool.and_left_comm]
  · simp [list_passengers]

/-- Claim C6: Passenger Create has no identifier-collision check and no
failure path (its result type is total): it stores the returned record under
its generated id.  When the generated identifiers are fresh, two successive
creates produce records with distinct ids, the first record is still stored
after the second create, and no previously stored record is overwritten. -/
theorem C6_create_passenger_fresh
    (s : PStore) (p1 p2 : PassengerCreate) (g1 g2 : UUID)
    (t1 t2 t3 t4 : Timestamp)
    (hfresh1 : Store.find? s g1 = none)
    (hfresh2 : Store.find? (create_passenger s p1 g1 t1 t2).1 g2 = none) :
    (create_passenger s p1 g1 t1 t2).2.id = g1 ∧
    Store.find? (create_passenger s p1 g1 t1 t2).1 g1
      = some (create_passenger s p1 g1 t1 t2).2 ∧
    (create_passenger (create_passenger s p1 g1 t1 t2).1 p2 g2 t3 t4).2.id
      ≠ (create_passenger s p1 g1 t1 t2).2.id ∧
    Store.find?
        (create_passenger (create_passenger s p1 g1 t1 t2).1 p2 g2 t3 t4).1 g1
      = some (create_passenger s p1 g1 t1 t2).2 ∧
    (∀ k r, Store.find? s k = some r →
      Store.find?
          (create_passenger (create_passenger s p1 g1 t1 t2).1 p2 g2 t3 t4).1 k
        = some r) := by
  rw [create_passenger_eq] at hfresh2 ⊢
  rw [create_passenger_eq]
  simp only [Store.find?_insert] at hfresh2
  have hne : ¬ (g1 = g2) := by
    intro hc
    rw [if_pos hc] at hfresh2
    exact Option.noConfusion hfresh2
  refine ⟨rfl, ?_, ?_, ?_, ?_⟩
  · exact Store.find?_insert_self _ _ _
  · intro hc
    exact hne (by simpa using hc.symm)
  · rw [Store.find?_insert]
    rw [if_neg (fun hc : g2 = g1 => hne hc.symm)]
    exact Store.find?_insert_self _ _ _
  · intro k r hk
    have hkg1 : ¬ (g1 = k) := by
      intro hc
      rw [← hc, hfresh1] at hk
      exact Option.noConfusion hk
    have h1k : Store.find?
        (Store.insert s g1
          ⟨p1.firstName, p1.lastName, p1.email, p1.phone, p1.birthDate,
           p1.passportNumber, p1.flights, g1, t1, t2⟩) k = some r := by
      rw [Store.find?_insert, if_neg hkg1]
      exact hk
    have hkg2 : ¬ (g2 = k) := by
      intro hc
      rw [hc] at hfresh2
      rw [if_neg hkg1] at hfresh2
      rw [hfresh2] at hk
      exact Option.noConfusion hk
    rw [Store.find?_insert, if_neg hkg2]
    exact h1k

/-! ## Case analyses of the update handlers -/

theorem Store.find?_mem {α : Type} (s : Store α) (k : UUID) (v : α)
    (h : Store.find? s k = some v) : (k, v) ∈ s := by
  induction s with
  | nil => exact Option.noConfusion h
  | cons e t ih =>
    obtain ⟨ek, ev⟩ := e
    by_cases hek : ek = k
    · rw [show Store.find? ((ek, ev) :: t) k
          = if ek = k then some ev else Store.find? t k from rfl,
        if_pos hek] at h
      obtain rfl : ev = v := Option.some.inj h
      exact hek ▸ List.mem_cons_self _ _
    · rw [show Store.find? ((ek, ev) :: t) k
          = if ek = k then some ev else Store.find? t k from rfl,
        if_neg hek] at h
      exact List.mem_cons_of_mem _ (ih h)

theorem update_flight_cases (s : FStore) (i : UUID) (u : FlightUpdate)
    (stored : FlightRead) (h : Store.find? s i = some stored) :
    update_flight s i u = (s, Except.error Err.validationError) ∨
    ∃ r, update_flight s i u = (Store.insert s i r, Except.ok r) ∧
      r.id = stored.id ∧ r.created_at = stored.created_at ∧
      r.updated_at = stored.updated_at := by
  simp only [update_flight, h]
  split
  · right; exact ⟨_, rfl, rfl, rfl, rfl⟩
  · left; rfl

theorem update_passenger_cases (s : PStore) (i : UUID) (u : PassengerUpdate)
    (stored : PassengerRead) (h : Store.find? s i = some stored) :
    update_passenger s i u = (s, Except.error Err.validationError) ∨
    ∃ r, update_passenger s i u = (Store.insert s i r, Except.ok r) ∧
      r.id = stored.id ∧ r.created_at = stored.created_at ∧
      r.updated_at = stored.updated_at := by
  simp only [update_passenger, h]
  split
  · right; exact ⟨_, rfl, rfl, rfl, rfl⟩
  · left; rfl

theorem update_flight_absent (s : FStore) (i : UUID) (u : FlightUpdate)
    (h : Store.find? s i = none) :
    update_flight s i u = (s, Except.error Err.notFound) := by
  simp [update_flight, h]

theorem update_passenger_absent (s : PStore) (i : UUID) (u : PassengerUpdate)
    (h : Store.find? s i = none) :
    update_passenger s i u = (s, Except.error Err.notFound) := by
  simp [update_passenger, h]

/-- A partial update whose only set field is a null `flightNumber`. -/
def fu_null : FlightUpdate := ⟨some none, none, none, none, none, none⟩

/-- A partial update setting `flightNumber` to `"UA9"`. -/
def fu_set : FlightUpdate := ⟨some (some "UA9"), none, none, none, none, none⟩

/-- A partial update setting `firstName` to `"Augusta"`. -/
def pu_set : PassengerUpdate :=
  ⟨some (some "Augusta"), none, none, none, none, none, none⟩

/-- Claim C2 counterexample: with the example flight stored under id 1, a
PATCH payload whose `flightNumber` is present but null is accepted by
`FlightUpdate` validation, yet the handler then fails rebuilding the record
(pydantic `ValidationError`, HTTP 500) instead of returning a record whose
present fields equal the payload's values. -/
theorem C2_null_field_update_fails :
    (update_flight fs0 1 fu_null).2 = Except.error Err.validationError ∧
    statusOf Err.validationError = 500 := by
  constructor <;> rfl

/-- Claim C2 (amended): for every identifier present in the store and every
partial update payload in which each present field carries a proper (non
null) value, Update returns a record in which each present field equals the
payload's value and every omitted field (including id and the timestamps)
equals its value before the update, and the stored record equals the
returned record; for both Flights and Passengers. -/
theorem C2_update_merges_present_fields
    (fs : FStore) (fid : UUID) (fu : FlightUpdate) (fr : FlightRead)
    (hff : Store.find? fs fid = some fr)
    (hf1 : fu.flightNumber ≠ some none) (hf2 : fu.boardingTime ≠ some none)
    (hf3 : fu.departureTime ≠ some none) (hf4 : fu.arrivalTime ≠ some none)
    (hf5 : fu.departureAirport ≠ some none)
    (hf6 : fu.arrivalAirport ≠ some none)
    (ps : PStore) (pid : UUID) (pu : PassengerUpdate) (pr : PassengerRead)
    (hpf : Store.find? ps pid = some pr)
    (hp1 : pu.firstName ≠ some none) (hp2 : pu.lastName ≠ some none)
    (hp3 : pu.email ≠ some none) (hp4 : pu.phone ≠ some none)
    (hp5 : pu.birthDate ≠ some none) (hp6 : pu.passportNumber ≠ some none)
    (hp7 : pu.flights ≠ some none) :
    (∃ r, update_flight fs fid fu = (Store.insert fs fid r, Except.ok r) ∧
      Store.find? (update_flight fs fid fu).1 fid = some r ∧
      (∀ v, fu.flightNumber = some (some v) → r.flightNumber = v) ∧
      (fu.flightNumber = none → r.flightNumber = fr.flightNumber) ∧
      (∀ v, fu.boardingTime = some (some v) → r.boardingTime = v) ∧
      (fu.boardingTime = none → r.boardingTime = fr.boardingTime) ∧
      (∀ v, fu.departureTime = some (some v) → r.departureTime = v) ∧
      (fu.departureTime = none → r.departureTime = fr.departureTime) ∧
      (∀ v, fu.arrivalTime = some (some v) → r.arrivalTime = v) ∧
      (fu.arrivalTime = none → r.arrivalTime = fr.arrivalTime) ∧
      (∀ v, fu.departureAirport = some (some v) → r.departureAirport = v) ∧
      (fu.departureAirport = none →
        r.departureAirport = fr.departureAirport) ∧
      (∀ v, fu.arrivalAirport = some (some v) → r.arrivalAirport = v) ∧
      (fu.arrivalAirport = none → r.arrivalAirport = fr.arrivalAirport) ∧
      r.id = fr.id ∧ r.created_at = fr.created_at ∧
      r.updated_at = fr.updated_at) ∧
    (∃ r, update_passenger ps pid pu = (Store.insert ps pid r, Except.ok r) ∧
      Store.find? (update_passenger ps pid pu).1 pid = some r ∧
      (∀ v, pu.firstName = some (some v) → r.firstName = v) ∧
      (pu.firstName = none → r.firstName = pr.firstName) ∧
      (∀ v, pu.lastName = some (some v) → r.lastName = v) ∧
      (pu.lastName = none → r.lastName = pr.lastName) ∧
      (∀ v, pu.email = some (some v) → r.email = v) ∧
      (pu.email = none → r.email = pr.email) ∧
      (∀ v, pu.phone = some (some v) → r.phone = v) ∧
      (pu.phone = none → r.phone = pr.phone) ∧
      (∀ v, pu.birthDate = some (some v) → r.birthDate = v) ∧
      (pu.birthDate = none → r.birthDate = pr.birthDate) ∧
      (∀ v, pu.passportNumber = some (some v) → r.passportNumber = v) ∧
      (pu.passportNumber = none → r.passportNumber = pr.passportNumber) ∧
      (∀ v, pu.flights = some (some v) → r.flights = v) ∧
      (pu.flights = none → r.flights = pr.flights) ∧
      r.id = pr.id ∧ r.created_at = pr.created_at ∧
      r.updated_at = pr.updated_at) := by
  constructor
  · obtain ⟨w1, e1, hs1, hn1⟩ := mergeField fu.flightNumber fr.flightNumber hf1
    obtain ⟨w2, e2, hs2, hn2⟩ := mergeField fu.boardingTime fr.boardingTime hf2
    obtain ⟨w3, e3, hs3, hn3⟩ :=
      mergeField fu.departureTime fr.departureTime hf3
    obtain ⟨w4, e4, hs4, hn4⟩ := mergeField fu.arrivalTime fr.arrivalTime hf4
    obtain ⟨w5, e5, hs5, hn5⟩ :=
      mergeField fu.departureAirport fr.departureAirport hf5
    obtain ⟨w6, e6, hs6, hn6⟩ :=
      mergeField fu.arrivalAirport fr.arrivalAirport hf6
    have hupd : update_flight fs fid fu =
        (Store.insert fs fid
          ⟨w1, w2, w3, w4, w5, w6, fr.id, fr.created_at, fr.updated_at⟩,
         Except.ok
          ⟨w1, w2, w3, w4, w5, w6, fr.id, fr.created_at, fr.updated_at⟩) := by
      simp only [update_flight, hff]
      rw [e1, e2, e3, e4, e5, e6]
    refine ⟨⟨w1, w2, w3, w4, w5, w6, fr.id, fr.created_at, fr.updated_at⟩,
      hupd, ?_, hs1, hn1, hs2, hn2, hs3, hn3, hs4, hn4, hs5, hn5, hs6, hn6,
      rfl, rfl, rfl⟩
    rw [hupd]
    exact Store.find?_insert_self _ _ _
  · obtain ⟨w1, e1, hs1, hn1⟩ := mergeField pu.firstName pr.firstName hp1
    obtain ⟨w2, e2, hs2, hn2⟩ := mergeField pu.lastName pr.lastName hp2
    obtain ⟨w3, e3, hs3, hn3⟩ := mergeField pu.email pr.email hp3
    obtain ⟨w4, e4, hs4, hn4⟩ := mergeField pu.phone pr.phone hp4
    obtain ⟨w5, e5, hs5, hn5⟩ := mergeField pu.birthDate pr.birthDate hp5
    obtain ⟨w6, e6, hs6, hn6⟩ :=
      mergeField pu.passportNumber pr.passportNumber hp6
    obtain ⟨w7, e7, hs7, hn7⟩ := mergeField pu.flights pr.flights hp7
    have hupd : update_passenger ps pid pu =
        (Store.insert ps pid
          ⟨w1, w2, w3, w4, w5, w6, w7, pr.id, pr.created_at, pr.updated_at⟩,
         Except.ok
          ⟨w1, w2, w3, w4, w5, w6, w7, pr.id, pr.created_at,
           pr.updated_at⟩) := by
      simp only [update_passenger, hpf]
      rw [e1, e2, e3, e4, e5, e6, e7]
    refine ⟨⟨w1, w2, w3, w4, w5, w6, w7, pr.id, pr.created_at, pr.updated_at⟩,
      hupd, ?_, hs1, hn1, hs2, hn2, hs3, hn3, hs4, hn4, hs5, hn5, hs6, hn6,
      hs7, hn7, rfl, rfl, rfl⟩
    rw [hupd]
    exact Store.find?_insert_self _ _ _

/-- Claim C5: PATCH copies `created_at` and `updated_at` verbatim from the
dumped stored record (`FlightUpdate`/`PassengerUpdate` have no timestamp
fields), and a failed update leaves the record untouched, so for an
identifier present in the store the record after Update always has the same
`updated_at` (and `created_at`) as before: `updated_at` is never refreshed
on PATCH, for Flights and for Passengers alike. -/
theorem C5_update_never_refreshes_timestamps
    (fs : FStore) (fid : UUID) (fu : FlightUpdate) (fr fr' : FlightRead)
    (hf : Store.find? fs fid = some fr)
    (hf' : Store.find? (update_flight fs fid fu).1 fid = some fr')
    (ps : PStore) (pid : UUID) (pu : PassengerUpdate) (pr pr' : PassengerRead)
    (hp : Store.find? ps pid = some pr)
    (hp' : Store.find? (update_passenger ps pid pu).1 pid = some pr') :
    fr'.created_at = fr.created_at ∧ fr'.updated_at = fr.updated_at ∧
    pr'.created_at = pr.created_at ∧ pr'.updated_at = pr.updated_at := by
  have hfl : fr'.created_at = fr.created_at ∧ fr'.updated_at = fr.updated_at := by
    rcases update_flight_cases fs fid fu fr hf with hcase | ⟨r, hcase, hid, hc, hu⟩
    · rw [hcase] at hf'
      obtain rfl : fr = fr' := Option.some.inj (hf.symm.trans hf')
      exact ⟨rfl, rfl⟩
    · rw [hcase] at hf'
      have : Store.find? (Store.insert fs fid r) fid = some r :=
        Store.find?_insert_self _ _ _
      obtain rfl : r = fr' := Option.some.inj (this.symm.trans hf')
      exact ⟨hc, hu⟩
  have hpa : pr'.created_at = pr.created_at ∧ pr'.updated_at = pr.updated_at := by
    rcases update_passenger_cases ps pid pu pr hp with hcase | ⟨r, hcase, hid, hc, hu⟩
    · rw [hcase] at hp'
      obtain rfl : pr = pr' := Option.some.inj (hp.symm.trans hp')
      exact ⟨rfl, rfl⟩
    · rw [hcase] at hp'
      have : Store.find? (Store.insert ps pid r) pid = some r :=
        Store.find?_insert_self _ _ _
      obtain rfl : r = pr' := Option.some.inj (this.symm.trans hp')
      exact ⟨hc, hu⟩
  exact ⟨hfl.1, hfl.2, hpa.1, hpa.2⟩

/-- Claim C8: Delete fails with NotFound (HTTP 404) when the identifier is
absent; when present it removes exactly that entry (every other identifier
still maps to its previous record), returns no content, and a subsequent
Get of the same identifier fails with NotFound; for both stores. -/
theorem C8_delete_removes_exactly
    (fs : FStore) (ps : PStore) (i : UUID) :
    (Store.find? fs i = none →
      delete_flight fs i = (fs, Except.error Err.notFound)) ∧
    (∀ r, Store.find? fs i = some r →
      (delete_flight fs i).2 = Except.ok () ∧
      (delete_flight fs i).1 = Store.erase fs i ∧
      Store.find? (delete_flight fs i).1 i = none ∧
      (∀ k, k ≠ i → Store.find? (delete_flight fs i).1 k = Store.find? fs k) ∧
      get_flight (delete_flight fs i).1 i = Except.error Err.notFound) ∧
    (Store.find? ps i = none →
      delete_passenger ps i = (ps, Except.error Err.notFound)) ∧
    (∀ r, Store.find? ps i = some r →
      (delete_passenger ps i).2 = Except.ok () ∧
      (delete_passenger ps i).1 = Store.erase ps i ∧
      Store.find? (delete_passenger ps i).1 i = none ∧
      (∀ k, k ≠ i →
        Store.find? (delete_passenger ps i).1 k = Store.find? ps k) ∧
      get_passenger (delete_passenger ps i).1 i
        = Except.error Err.notFound) ∧
    statusOf Err.notFound = 404 := by
  refine ⟨?_, ?_, ?_, ?_, rfl⟩
  · intro h; simp [delete_flight, h]
  · intro r h
    have hd : delete_flight fs i = (Store.erase fs i, Except.ok ()) := by
      simp [delete_flight, h]
    rw [hd]
    refine ⟨rfl, rfl, Store.find?_erase_self _ _, ?_, ?_⟩
    · intro k hk
      exact Store.find?_erase_ne _ _ _ hk
    · simp [get_flight, Store.find?_erase_self]
  · intro h; simp [delete_passenger, h]
  · intro r h
    have hd : delete_passenger ps i = (Store.erase ps i, Except.ok ()) := by
      simp [delete_passenger, h]
    rw [hd]
    refine ⟨rfl, rfl, Store.find?_erase_self _ _, ?_, ?_⟩
    · intro k hk
      exact Store.find?_erase_ne _ _ _ hk
    · simp [get_passenger, Store.find?_erase_self]

/-- Claim C9: every failing request leaves the store it addresses exactly as
it was: the always-failing flight create, a NotFound or ValidationError
update, and a NotFound delete all return the input store unchanged (Get and
List are read-only by construction, and each handler only ever touches its
own resource's store). -/
theorem C9_failing_requests_preserve_stores :
    ∀ (fs : FStore) (ps : PStore) (i : UUID) (fc : FlightCreate) (g : UUID)
      (tc tu : Timestamp) (fu : FlightUpdate) (pu : PassengerUpdate)
      (e : Err),
      ((create_flight fs fc g tc tu).2 = Except.error e →
        (create_flight fs fc g tc tu).1 = fs) ∧
      ((update_flight fs i fu).2 = Except.error e →
        (update_flight fs i fu).1 = fs) ∧
      ((delete_flight fs i).2 = Except.error e →
        (delete_flight fs i).1 = fs) ∧
      ((update_passenger ps i pu).2 = Except.error e →
        (update_passenger ps i pu).1 = ps) ∧
      ((delete_passenger ps i).2 = Except.error e →
        (delete_passenger ps i).1 = ps) := by
  intro fs ps i fc g tc tu fu pu e
  refine ⟨fun _ => rfl, ?_, ?_, ?_, ?_⟩
  · intro he
    cases hfi : Store.find? fs i with
    | none => rw [update_flight_absent fs i fu hfi]
    | some stored =>
      rcases update_flight_cases fs i fu stored hfi with hcase | ⟨r, hcase, _⟩
      · rw [hcase]
      · rw [hcase] at he
        exact Except.noConfusion he
  · intro he
    cases hfi : Store.find? fs i with
    | none => simp [delete_flight, hfi]
    | some stored =>
      simp [delete_flight, hfi] at he
  · intro he
    cases hfi : Store.find? ps i with
    | none => rw [update_passenger_absent ps i pu hfi]
    | some stored =>
      rcases update_passenger_cases ps i pu stored hfi with hcase | ⟨r, hcase, _⟩
      · rw [hcase]
      · rw [hcase] at he
        exact Except.noConfusion he
  · intro he
    cases hfi : Store.find? ps i with
    | none => simp [delete_passenger, hfi]
    | some stored =>
      simp [delete_passenger, hfi] at he

/-- The key under which every passenger record is stored equals the record's
own `id` field. -/
def PInv (s : PStore) : Prop := ∀ e ∈ s, (e.2 : PassengerRead).id = e.1

/-- Claim C10: every mutating passenger operation preserves the invariant
that each store key equals the stored record's `id` (Get and List do not
write), and PATCH writes back a record whose `id` equals the id it read,
since `PassengerUpdate` carries no id field. -/
theorem C10_store_key_equals_record_id
    (s : PStore) (hs : PInv s) (p : PassengerCreate) (g : UUID)
    (tc tu : Timestamp) (i : UUID) (u : PassengerUpdate) :
    PInv (create_passenger s p g tc tu).1 ∧
    PInv (update_passenger s i u).1 ∧
    PInv (delete_passenger s i).1 ∧
    (∀ r r', Store.find? s i = some r →
      Store.find? (update_passenger s i u).1 i = some r' → r'.id = r.id) := by
  refine ⟨?_, ?_, ?_, ?_⟩
  · rw [create_passenger_eq]
    intro e he
    rcases Store.mem_insert _ _ _ _ he with h | h
    · rw [h]
    · exact hs e h
  · cases hfi : Store.find? s i with
    | none =>
      rw [update_passenger_absent s i u hfi]
      exact hs
    | some stored =>
      rcases update_passenger_cases s i u stored hfi with hcase | ⟨r, hcase, hid, _⟩
      · rw [hcase]; exact hs
      · rw [hcase]
        intro e he
        rcases Store.mem_insert _ _ _ _ he with h | h
        · rw [h]
          show r.id = i
          rw [hid]
          exact hs (i, stored) (Store.find?_mem s i stored hfi)
        · exact hs e h
  · cases hfi : Store.find? s i with
    | none => simp only [delete_passenger, hfi]; exact hs
    | some stored =>
      simp only [delete_passenger, hfi]
      intro e he
      exact hs e (Store.mem_erase _ _ _ he)
  · intro r r' hr hr'
    rcases update_passenger_cases s i u r hr with hcase | ⟨r2, hcase, hid, _⟩
    · rw [hcase] at hr'
      obtain rfl : r = r' := Option.some.inj (hr.symm.trans hr')
      rfl
    · rw [hcase] at hr'
      have : Store.find? (Store.insert s i r2) i = some r2 :=
        Store.find?_insert_self _ _ _
      obtain rfl : r2 = r' := Option.some.inj (this.symm.trans hr')
      exact hid

/-! ## Witnesses -/

/-- The example flight record after `fu_set` is applied. -/
def fr1 : FlightRead :=
  ⟨"UA9", "7:00AM", "7:32AM", "11:38AM", "JFK", "SFO", 1, 10, 10⟩

/-- The example passenger record after `pu_set` is applied. -/
def pr1 : PassengerRead :=
  ⟨"Augusta", "Lovelace", "ada@example.com", "+1-212-555-0199",
   ⟨1815, 12, 10⟩, "A12345678", [], 1, 10, 10⟩

/-- Witness for C2 (amended): updating the example stores with payloads that
set exactly one non-null field succeeds and writes that field. -/
theorem C2_update_merges_present_fields_witness :
    Store.find? fs0 1 = some fr0 ∧ fu_set.flightNumber ≠ some none ∧
    Store.find? ps0 1 = some pr0 ∧ pu_set.firstName ≠ some none ∧
    (∃ r, update_flight fs0 1 fu_set = (Store.insert fs0 1 r, Except.ok r) ∧
      r.flightNumber = "UA9") ∧
    (∃ r, update_passenger ps0 1 pu_set
        = (Store.insert ps0 1 r, Except.ok r) ∧ r.firstName = "Augusta") := by
  have h := C2_update_merges_present_fields fs0 1 fu_set fr0 (by decide)
    (by decide) (by decide) (by decide) (by decide) (by decide) (by decide)
    ps0 1 pu_set pr0 (by decide) (by decide) (by decide) (by decide)
    (by decide) (by decide) (by decide) (by decide)
  obtain ⟨⟨r, hupd, _, hset, _⟩, ⟨r2, hupd2, _, hset2, _⟩⟩ := h
  exact ⟨by decide, by decide, by decide, by decide,
    ⟨r, hupd, hset "UA9" rfl⟩, ⟨r2, hupd2, hset2 "Augusta" rfl⟩⟩

/-- Witness for C5: a concrete PATCH leaves both timestamps of the example
records unchanged. -/
theorem C5_update_never_refreshes_timestamps_witness :
    Store.find? fs0 1 = some fr0 ∧
    Store.find? (update_flight fs0 1 fu_set).1 1 = some fr1 ∧
    Store.find? ps0 1 = some pr0 ∧
    Store.find? (update_passenger ps0 1 pu_set).1 1 = some pr1 ∧
    (fr1.created_at = fr0.created_at ∧ fr1.updated_at = fr0.updated_at ∧
     pr1.created_at = pr0.created_at ∧ pr1.updated_at = pr0.updated_at) :=
  ⟨by decide, by decide, by decide, by decide,
   C5_update_never_refreshes_timestamps fs0 1 fu_set fr0 fr1 (by decide)
     (by decide) ps0 1 pu_set pr0 pr1 (by decide) (by decide)⟩

/-- Witness for C6: two passenger creates with distinct fresh ids on the
example store give records with distinct ids. -/
theorem C6_create_passenger_fresh_witness :
    Store.find? ps0 2 = none ∧
    Store.find? (create_passenger ps0 p0 2 20 20).1 3 = none ∧
    (create_passenger ps0 p0 2 20 20).2.id = 2 ∧
    (create_passenger (create_passenger ps0 p0 2 20 20).1 p0 3 30 30).2.id
      ≠ (create_passenger ps0 p0 2 20 20).2.id := by
  have h := C6_create_passenger_fresh ps0 p0 p0 2 3 20 20 30 30 (by decide)
    (by decide)
  exact ⟨by decide, by decide, h.1, h.2.2.1⟩

/-- Witness for C8: deleting the stored example flight removes it and a
subsequent Get fails with NotFound. -/
theorem C8_delete_removes_exactly_witness :
    Store.find? fs0 1 = some fr0 ∧
    Store.find? (delete_flight fs0 1).1 1 = none ∧
    get_flight (delete_flight fs0 1).1 1 = Except.error Err.notFound := by
  have h := (C8_delete_removes_exactly fs0 ps0 1).2.1 fr0 (by decide)
  exact ⟨by decide, h.2.2.1, h.2.2.2.2⟩

/-- Witness for C9: a failing flight create and a NotFound update leave the
example store unchanged. -/
theorem C9_failing_requests_preserve_stores_witness :
    (create_flight fs0 f0 2 20 20).2 = Except.error Err.attributeError ∧
    (create_flight fs0 f0 2 20 20).1 = fs0 ∧
    (update_flight fs0 5 fu_set).2 = Except.error Err.notFound ∧
    (update_flight fs0 5 fu_set).1 = fs0 := by
  have h1 := (C9_failing_requests_preserve_stores fs0 ps0 5 f0 2 20 20 fu_set
    pu_set Err.attributeError).1 rfl
  have h2 := (C9_failing_requests_preserve_stores fs0 ps0 5 f0 2 20 20 fu_set
    pu_set Err.notFound).2.1 rfl
  exact ⟨rfl, h1, rfl, h2⟩

/-- Witness for C10: the key-equals-id invariant holds on the example store
and is kept by concrete create, update and delete requests. -/
theorem C10_store_key_equals_record_id_witness :
    PInv ps0 ∧ PInv (create_passenger ps0 p0 2 20 20).1 ∧
    PInv (update_passenger ps0 1 pu_set).1 ∧
    PInv (delete_passenger ps0 1).1 := by
  have hinv : PInv ps0 := by
    intro e he
    obtain rfl := List.mem_singleton.mp he
    rfl
  have h := C10_store_key_equals_record_id ps0 hinv p0 2 20 20 1 pu_set
  exact ⟨hinv, h.1, h.2.1, h.2.2.1⟩
